import Mathlib

/-!
# Verification of the datadog-agent trace pipeline and docker utilities

Shallow embedding of the code in `pkg/util/docker/containers.go` (the
docker container utilities, the trace-agent `Process`/`sample`/`runSamplers`
pipeline and the HTTP receiver), together with proofs about the claims of
the natural-language specification.

Go `float64` values are modelled as exact rationals (`ℚ`); Go identifiers
are kept where Lean allows.  Functions of this repository that are only
*called* here (packages `sampler`, `traceutil`, `stats`, `writer`, ...) are
modelled from the specification and carry a doc comment saying so.
-/

set_option autoImplicit false

namespace DDAgent

/-! ## Basic data model: spans, metrics, traces -/

/-- A `metrics` map (`string → float64`), modelled as an association list
with first-key-wins lookup, as written by `setMetric`. -/
abbrev Metrics := List (String × ℚ)

/-- Lookup of a metrics key (Go `v, ok := m[k]`). -/
def lookupMetric (m : Metrics) (k : String) : Option ℚ :=
  match m with
  | [] => none
  | p :: rest => if p.fst = k then some p.snd else lookupMetric rest k

/-- Assignment `m[k] = v`: overwrite the binding of `k` (or append it). -/
def setMetric (m : Metrics) (k : String) (v : ℚ) : Metrics :=
  match m with
  | [] => [(k, v)]
  | p :: rest => if p.fst = k then (k, v) :: rest else p :: setMetric rest k v

/-- A `meta` map (`string → string`). -/
abbrev MetaMap := List (String × String)

def lookupMeta (m : MetaMap) (k : String) : Option String :=
  match m with
  | [] => none
  | p :: rest => if p.fst = k then some p.snd else lookupMeta rest k

/-- `pb.Span`, restricted to the fields the pipeline reads or writes. -/
structure Span where
  traceID : Nat
  spanID : Nat
  parentID : Nat
  service : String
  name : String
  resource : String
  start : Int
  duration : Int
  error : Int
  meta : MetaMap
  metrics : Metrics
deriving Repr, DecidableEq, Inhabited

/-- `pb.Trace`: a collection of spans. -/
abbrev Trace := List Span

/-! ## Docker utilities: `parseContainerHealth` (containers.go)

The status string is scanned with `healthRe = regexp.MustCompile("\\(health: (\\w+)\\)")`.
Go strings are byte strings; every byte of the needles involved
(`"unhealthy"`, `'('`, the literal part of the pattern) is ASCII, and an
ASCII byte inside valid UTF-8 is always a complete character, so the
byte-level searches of the Go code coincide with the character-level
searches below. -/

/-- RE2 `\w` (ASCII word character: `[0-9A-Za-z_]`). -/
def isWordChar (c : Char) : Bool :=
  c.isAlphanum || c == '_'

/-- Go `strings.Index(hay, needle) >= 0`: `needle` occurs as a contiguous
substring of `hay`. -/
def containsSub (needle : List Char) (hay : List Char) : Bool :=
  match hay with
  | [] => needle.isEmpty
  | _ :: rest => needle.isPrefixOf hay || containsSub needle rest

/-- Longest run of word characters at the front of the list, together with
the remainder. -/
def takeWordRun : List Char → List Char × List Char
  | [] => ([], [])
  | c :: cs =>
    if isWordChar c then
      let r := takeWordRun cs
      (c :: r.fst, r.snd)
    else ([], c :: cs)

/-- The literal part of the pattern `\(health: (\w+)\)`. -/
def healthLit : List Char := ("(health: ".data)

/-- Match of `healthRe` anchored at the head of `l`: returns
`(whole match, capture group)` when the pattern matches here.  Since `\w`
excludes `')'`, the greedy `\w+` never backtracks usefully: the pattern
matches at this position iff the literal prefix is present, followed by a
non-empty word-character run, followed by `')'`. -/
def healthMatchAt (l : List Char) : Option (List Char × List Char) :=
  if healthLit.isPrefixOf l then
    let rest := l.drop healthLit.length
    let run := takeWordRun rest
    if !run.fst.isEmpty && run.snd.headI == ')' && !run.snd.isEmpty then
      some (healthLit ++ run.fst ++ [')'], run.fst)
    else none
  else none

/-- `healthRe.FindAllStringSubmatch(status, -1)`: leftmost matches, scanning
resumes after the end of each match.  Each returned entry is
`(whole match, first capture group)`. -/
def healthFindAll : List Char → List (List Char × List Char)
  | [] => []
  | c :: cs =>
    match healthMatchAt (c :: cs) with
    | some m => m :: healthFindAll (cs.drop (m.fst.length - 1))
    | none => healthFindAll cs
termination_by l => l.length
decreasing_by
  · simp only [List.length_cons, List.length_drop]
    omega
  · simp only [List.length_cons]
    omega

/-- `parseContainerHealth` (containers.go, lines 176-189), translated
guard for guard: the `unhealthy` substring check, the `'('` fast path, and
the `len(all) < 1 || len(all[0]) < 2` guard over `FindAllStringSubmatch`
(whose entries are modelled as `[whole, capture]`). -/
def parseContainerHealth (status : String) : String :=
  if containsSub ("unhealthy".data) status.data then "unhealthy"
  else if !(status.data.contains '(') then ""
  else
    let all := (healthFindAll status.data).map (fun m => [m.fst, m.snd])
    if all.length < 1 || (all.headD []).length < 2 then ""
    else String.mk ((all.headD []).getD 1 [])

/-- The claim's description of `parseContainerHealth`: `"unhealthy"`
whenever the status contains `"unhealthy"`; `""` whenever it contains
neither `"unhealthy"` nor `'('`; otherwise the first capture group of the
first match of `\(health: (\w+)\)`, or `""` when the pattern does not
match. -/
def healthClaimed (status : String) : String :=
  if containsSub ("unhealthy".data) status.data then "unhealthy"
  else if !(status.data.contains '(') then ""
  else
    match (healthFindAll status.data).head? with
    | some m => String.mk m.snd
    | none => ""

/-! ## Trace-agent data model -/

/-- Metric keys.  `_sample_rate` is named by the specification (§8 property 3);
the dedicated client-rate and pre-sample-rate keys are named there only as
"the root's dedicated client rate / pre-sample rate key", so the model uses
two fresh distinct key constants. -/
def keySampleRate : String := "_sample_rate"

def keyClientRate : String := "_dd.client_rate"

def keyPreSampleRate : String := "_dd.pre_sample_rate"

def keySamplingPriority : String := "_sampling_priority_v1"

def keyTopLevel : String := "_top_level"

def keySublayerSpanCount : String := "_sublayers.span_count"

/-- Modelled from the spec: `sampler.GetSamplingPriority` (package
`pkg/trace/sampler`, not under `src/`) reads the client-set sampling
priority from the root span's metrics (scenario S1 names the key
`_sampling_priority_v1`); the Go function returns `(0, false)` when the key
is absent, modelled as `none`. -/
def GetSamplingPriority (root : Span) : Option ℚ :=
  lookupMetric root.metrics keySamplingPriority

/-- Modelled from the spec: `sampler.GetGlobalRate` reads the global sample
rate `_sample_rate` from the root's metrics (§8 property 3), defaulting to
`1` when unset (§3: "if available else 1"). -/
def GetGlobalRate (root : Span) : ℚ :=
  (lookupMetric root.metrics keySampleRate).getD 1

/-- Modelled from the spec: `sampler.AddGlobalRate` "multiplies, not
replaces" (§4.5) the root's global sample rate. -/
def AddGlobalRate (root : Span) (rate : ℚ) : Span :=
  { root with metrics := setMetric root.metrics keySampleRate (GetGlobalRate root * rate) }

/-- Modelled from the spec: `sampler.SetClientRate` writes the client
sample rate "back into the root's dedicated client rate key" (§4.4 step 5). -/
def SetClientRate (root : Span) (rate : ℚ) : Span :=
  { root with metrics := setMetric root.metrics keyClientRate rate }

/-- Modelled from the spec: `sampler.SetPreSampleRate` writes "the admission
pre-sample rate (from Rate Limiter) into the root's pre-sample rate key"
(§4.4 step 5). -/
def SetPreSampleRate (root : Span) (rate : ℚ) : Span :=
  { root with metrics := setMetric root.metrics keyPreSampleRate rate }

/-- Modelled from the spec: `sampler.CombineRates` combines the rates of two
samplers: `combine(a,b) = a + b - a·b` when both apply (§4.5).  The Go
function receives only the two rates; a sampler that was not consulted
contributes the Go zero value `0.0`, for which the formula degenerates to
the other ("single") value, as the spec's "else the single value" clause
requires. -/
def CombineRates (a b : ℚ) : ℚ :=
  a + b - a * b

/-- `traceContainsError` (agent.go, lines 555-562): some span has
`Error != 0`. -/
def traceContainsError (trace : Trace) : Bool :=
  trace.any (fun s => s.error != 0)

/-- The text fields of a span that the obfuscator, truncator and replacer
may rewrite (spec §1 and §4.4 step 4: they sanitize span tags and text
fields; they are external collaborators whose rules are out of scope). -/
structure SpanText where
  service : String
  name : String
  resource : String
  meta : MetaMap
deriving Repr, DecidableEq, Inhabited

/-- Apply a text-field sanitizer to a span, leaving identity, timing and
metrics untouched. -/
def applyText (f : SpanText → SpanText) (s : Span) : Span :=
  let t := f { service := s.service, name := s.name, resource := s.resource, meta := s.meta }
  { s with service := t.service, name := t.name, resource := t.resource, meta := t.meta }

/-- `ProcessedTrace` (trace, root, env).  The Go struct holds `Root` as a
pointer into `Trace`; the model keeps the root's index and reads it back,
so a write "through the root pointer" is a `List.set` at `rootIdx`. -/
structure ProcessedTrace where
  trace : Trace
  rootIdx : Nat
  env : String
  weights : List ℚ
deriving Repr, Inhabited

def ProcessedTrace.root (pt : ProcessedTrace) : Span :=
  pt.trace.getD pt.rootIdx default

def ProcessedTrace.getSamplingPriority (pt : ProcessedTrace) : Option ℚ :=
  GetSamplingPriority pt.root

/-- Events extracted by the event processor are single-span samples. -/
abbrev Event := Span

/-- `writer.SampledSpans`: the kept spans and the extracted events. -/
structure SampledSpans where
  trace : Trace
  events : List Event
deriving Repr, Inhabited

/-- Modelled from the spec: `writer.SampledSpans.Empty` — "Either may be
empty; if both are empty the trace is dropped" (§3, Sampled Output). -/
def SampledSpans.Empty (ss : SampledSpans) : Bool :=
  ss.trace.isEmpty && ss.events.isEmpty

/-- The agent's collaborators, as the pipeline sees them: the three
samplers expose `Add(pt) → (kept, rate)` (§4.5), the event processor
`Process(root, trace) → (events, numExtracted)` (§4.6), the blacklister a
predicate on the root (§4.4 step 3), and the receiver's rate limiter its
current real rate. -/
structure Agent where
  prioritySampler : ProcessedTrace → Bool × ℚ
  errorsScoreSampler : ProcessedTrace → Bool × ℚ
  scoreSampler : ProcessedTrace → Bool × ℚ
  eventProcessor : Span → Trace → List Event × Nat
  blacklistAllows : Span → Bool
  obfuscateText : SpanText → SpanText
  replaceText : SpanText → SpanText
  rateLimiterRealRate : ℚ
  defaultEnv : String

/-- Result of `runSamplers`, instrumented with which samplers were
consulted (the three `if` conditions of the source). -/
structure SamplersRun where
  sampled : Bool
  rate : ℚ
  consultedPriority : Bool
  consultedErrors : Bool
  consultedScore : Bool
deriving Repr

/-- `runSamplers` (agent.go, lines 538-553): the priority sampler is added
when the trace has an explicit priority, exactly one of the errors/score
samplers is added depending on `traceContainsError`, and the two decisions
are OR-combined while the rates go through `sampler.CombineRates`.  A
sampler that is not consulted leaves its `(sampled, rate)` pair at the Go
zero values `(false, 0)`. -/
def Agent.runSamplers (a : Agent) (pt : ProcessedTrace) : SamplersRun :=
  let hasPrio := pt.getSamplingPriority.isSome
  let prioRes := if hasPrio then a.prioritySampler pt else (false, 0)
  let hasErr := traceContainsError pt.trace
  let scoreRes := if hasErr then a.errorsScoreSampler pt else a.scoreSampler pt
  { sampled := scoreRes.fst || prioRes.fst
    rate := CombineRates prioRes.snd scoreRes.snd
    consultedPriority := hasPrio
    consultedErrors := hasErr
    consultedScore := !hasErr }

/-! ## Root selection, top-level marks, sublayers -/

/-- A root candidate per the spec (§3): `parent_id` is zero or the parent
is not present in the trace. -/
def isRootCand (t : Trace) (s : Span) : Bool :=
  s.parentID == 0 || !(t.any (fun p => p.spanID == s.parentID))

/-- Among the candidate indices, keep the one with the smallest `start`
(leftmost on ties). -/
def bestRootIdx (t : Trace) : List Nat → Option Nat
  | [] => none
  | i :: is =>
    match bestRootIdx t is with
    | none => some i
    | some j =>
      if (t.getD j default).start < (t.getD i default).start then some j else some i

/-- Modelled from the spec: `traceutil.GetRoot` — "the root is the span
whose parent_id is zero or whose parent is not present in the same trace;
ties broken by smallest start" (§3); totality fallback: the last span. -/
def getRootIdx (t : Trace) : Nat :=
  (bestRootIdx t ((List.range t.length).filter
    (fun i => isRootCand t (t.getD i default)))).getD (t.length - 1)

def rootSpanOf (t : Trace) : Span :=
  t.getD (getRootIdx t) default

/-- Modelled from the spec: whether a span is top-level — "a span is
top-level if it has no parent in the trace OR its parent's service differs
from its own" (§4.4 step 6). -/
def isTopLevel (t : Trace) (s : Span) : Bool :=
  if s.parentID == 0 then true
  else
    match t.find? (fun p => p.spanID == s.parentID) with
    | none => true
    | some p => p.service != s.service

/-- Modelled from the spec: `traceutil.ComputeTopLevel` marks top-level
spans "by writing a sentinel into metrics" (§4.4 step 6).  Only span
identities and services are read, so marking while iterating (as the Go
in-place loop does) and mapping over the original list agree. -/
def computeTopLevel (t : Trace) : Trace :=
  t.map (fun s => if isTopLevel t s then { s with metrics := setMetric s.metrics keyTopLevel 1 } else s)

/-- Parent of a span inside the trace. -/
def parentOf (t : Trace) (s : Span) : Option Span :=
  t.find? (fun p => p.spanID == s.parentID)

/-- Whether `s` belongs to the subtrace rooted at `r`: a parent chain from
`s` to `r` staying within `r`'s service (spec §4.4 step 7: descendants
whose service equals the sub-root's service), explored with fuel. -/
def chainTo (t : Trace) : Nat → Span → Span → Bool
  | 0, _, _ => false
  | fuel + 1, r, s =>
    s.spanID == r.spanID ||
    (s.service == r.service &&
      match parentOf t s with
      | some p => chainTo t fuel r p
      | none => false)

def inSubtrace (t : Trace) (r : Span) (s : Span) : Bool :=
  chainTo t (t.length + 1) r s

/-- Modelled from the spec: the sublayer stage
(`stats.ExtractTopLevelSubtraces` / `ComputeSublayers` /
`SetSublayersOnSpan`, §4.4 step 7) attaches sublayer metrics (names of the
family `_sublayers.*`, §3) to each top-level sub-root.  No claim reads the
sublayer values, so the model records the span-count sublayer only; what is
load-bearing downstream is that the stage writes metric keys distinct from
the sampling-rate keys. -/
def sublayerStage (t : Trace) : Trace :=
  t.map (fun s =>
    if isTopLevel t s then
      { s with metrics :=
          setMetric s.metrics keySublayerSpanCount ((t.filter (fun x => inSubtrace t s x)).length : ℚ) }
    else s)

/-- Modelled from the spec: the weight of a span, `1 / client_sample_rate`
if available else 1 (§3, WeightedTrace), read from the root's global rate
at `ProcessedTrace` construction time. -/
def spanWeight (root : Span) : ℚ :=
  match lookupMetric root.metrics keySampleRate with
  | some r => if r ≤ 0 then 1 else 1 / r
  | none => 1

/-! ## `Process` and `sample` (agent.go) -/

/-- Result of the sampling stage (`Agent.sample`, agent.go 516-534):
the instrumented sampler run, the `SampledSpans` that was assembled, what
(if anything) was sent on the sampled-spans channel, the event-extraction
counters, and the processed trace after the root mutation. -/
structure SampleResult where
  run : SamplersRun
  ss : SampledSpans
  sent : Option SampledSpans
  numExtracted : Nat
  finalPt : ProcessedTrace
deriving Repr

/-- `Agent.sample` (agent.go, lines 516-534): run the samplers; when the
trace is kept, multiply the combined rate into the root's global rate and
put the trace into the output; always run the event processor (on the
possibly updated spans, which Go shares by pointer); send the result iff it
is not `Empty`. -/
def Agent.sample (a : Agent) (pt : ProcessedTrace) : SampleResult :=
  let run := a.runSamplers pt
  let pt' := if run.sampled then
      { pt with trace := pt.trace.set pt.rootIdx (AddGlobalRate pt.root run.rate) }
    else pt
  let ssTrace := if run.sampled then pt'.trace else []
  let evRes := a.eventProcessor pt'.root pt'.trace
  let ss : SampledSpans := { trace := ssTrace, events := evRes.fst }
  { run := run
    ss := ss
    sent := if ss.Empty then none else some ss
    numExtracted := evRes.snd
    finalPt := pt' }

/-- The priority bucket counters of `Process` (agent.go, lines 442-454). -/
inductive PriorityBucket where
  | noPriority
  | neg
  | p0
  | p1
  | p2plus
deriving Repr, DecidableEq

/-- Per-span sanitization (agent.go, lines 463-468): the obfuscator,
truncator and replacer rewrite text fields in place. -/
def sanitizeSpan (a : Agent) (s : Span) : Span :=
  applyText a.replaceText (applyText a.obfuscateText s)

/-- The rate bookkeeping on the root (agent.go, lines 470-477): read the
client sample rate, write it to the client-rate key, write the rate
limiter's real rate to the pre-sample-rate key, and multiply it into the
global sample rate. -/
def rateStageRoot (a : Agent) (root2 : Span) : Span :=
  AddGlobalRate
    (SetPreSampleRate (SetClientRate root2 (GetGlobalRate root2)) a.rateLimiterRealRate)
    a.rateLimiterRealRate

/-- The span-list state after sanitization, the root rate writes, top-level
marking and the sublayer metrics (agent.go, lines 463-489). -/
def prepSpans (a : Agent) (t : Trace) (rootIdx : Nat) : Trace :=
  let t2 := t.map (sanitizeSpan a)
  let t3 := t2.set rootIdx (rateStageRoot a (t2.getD rootIdx default))
  sublayerStage (computeTopLevel t3)

/-- The preparation stages of `Process` between the blacklister and the
sampling decision (agent.go, lines 463-501): `prepSpans` plus the
`ProcessedTrace` assembly (env override from the root's `env` meta, and the
weighted trace computed at construction time).  The Go code mutates the
spans in place through pointers; the model threads the root index. -/
def Agent.prepTrace (a : Agent) (t : Trace) (rootIdx : Nat) : ProcessedTrace :=
  let t5 := prepSpans a t rootIdx
  let root5 := t5.getD rootIdx default
  let tenv := (lookupMeta root5.meta "env").getD ""
  { trace := t5
    rootIdx := rootIdx
    env := if tenv != "" then tenv else a.defaultEnv
    weights := t5.map (fun _ => spanWeight root5) }

/-- The concentrator input (`stats.Input`): the weighted trace and env. -/
structure ConcInput where
  trace : Trace
  weights : List ℚ
  env : String
deriving Repr

/-- The observable effects of one `Agent.Process` call (agent.go, lines
423-512): which priority counter was bumped, the filtered counters, whether
the sampling stage ran, what was sent on the sampled-spans channel and to
the concentrator, and the final state of the spans. -/
structure ProcessEffects where
  priorityStat : Option PriorityBucket
  tracesFiltered : Int
  spansFiltered : Int
  samplersRun : Bool
  spansOut : Option SampledSpans
  concentratorIn : Option ConcInput
  eventsExtracted : Nat
  finalTrace : Trace
  rootIdx : Nat
deriving Repr

/-- `Agent.Process` (agent.go, lines 423-512), stage by stage: empty-trace
early return; root and priority read once up front; priority-bucket
counter; blacklister; the preparation stages (`Agent.prepTrace`); the
`priority >= 0` gate in front of `Agent.sample`; and the unconditional
concentrator send. -/
def Agent.Process (a : Agent) (t : Trace) : ProcessEffects :=
  if t.isEmpty then
    { priorityStat := none, tracesFiltered := 0, spansFiltered := 0,
      samplersRun := false, spansOut := none, concentratorIn := none,
      eventsExtracted := 0, finalTrace := [], rootIdx := 0 }
  else
    let rootIdx := getRootIdx t
    let root := t.getD rootIdx default
    let prio := GetSamplingPriority root
    let priority := prio.getD 0
    let bucket :=
      if prio.isSome then
        if priority < 0 then PriorityBucket.neg
        else if priority == 0 then PriorityBucket.p0
        else if priority == 1 then PriorityBucket.p1
        else PriorityBucket.p2plus
      else PriorityBucket.noPriority
    if !(a.blacklistAllows root) then
      { priorityStat := some bucket, tracesFiltered := 1,
        spansFiltered := (t.length : Int), samplersRun := false,
        spansOut := none, concentratorIn := none, eventsExtracted := 0,
        finalTrace := t, rootIdx := rootIdx }
    else
      let pt := a.prepTrace t rootIdx
      if 0 ≤ priority then
        let sr := a.sample pt
        { priorityStat := some bucket, tracesFiltered := 0, spansFiltered := 0,
          samplersRun := true, spansOut := sr.sent,
          concentratorIn := some { trace := sr.finalPt.trace, weights := pt.weights, env := pt.env },
          eventsExtracted := sr.numExtracted,
          finalTrace := sr.finalPt.trace, rootIdx := rootIdx }
      else
        { priorityStat := some bucket, tracesFiltered := 0, spansFiltered := 0,
          samplersRun := false, spansOut := none,
          concentratorIn := some { trace := pt.trace, weights := pt.weights, env := pt.env },
          eventsExtracted := 0,
          finalTrace := pt.trace, rootIdx := rootIdx }

/-! ## HTTP receiver (api.go) -/

/-- The distinct values of a list in first-appearance order (accumulator
`seen`), modelling the keys of the Go map `byID` (Go map iteration order is
unspecified; the claims are insensitive to the order of the returned
traces). -/
def dedupKeysFirstAux (seen : List Nat) : List Nat → List Nat
  | [] => []
  | k :: rest =>
    if seen.contains k then dedupKeysFirstAux seen rest
    else k :: dedupKeysFirstAux (seen ++ [k]) rest

def dedupKeysFirst (l : List Nat) : List Nat :=
  dedupKeysFirstAux [] l

/-- `tracesFromSpans` (api.go, lines 1098-1109).  The Go loop

    for _, s := range spans { byID[s.TraceID] = append(byID[s.TraceID], &s) }

appends the address of the range variable `s` itself, not of the slice
element: every stored pointer aliases the same variable, which after the
loop holds the last span of the input.  The model therefore produces, for
each distinct `TraceID` of the input, a trace with one entry per input span
carrying that id, every entry dereferencing to the last input span. -/
def tracesFromSpans (spans : List Span) : List Trace :=
  match spans.getLast? with
  | none => []
  | some lastSpan =>
    (dedupKeysFirst (spans.map (fun s => s.traceID))).map
      (fun id => (spans.filter (fun s => s.traceID == id)).map (fun _ => lastSpan))

/-- Modelled from the spec: the intended v0.1 grouping — "group by
`trace_id` to form traces" (§4.2 step 5, scenario S3), each input span
appearing once, unmodified, in the trace of its `trace_id`. -/
def tracesFromSpansIntended (spans : List Span) : List Trace :=
  (dedupKeysFirst (spans.map (fun s => s.traceID))).map
    (fun id => spans.filter (fun s => s.traceID == id))

/-- Go `strconv.Atoi`, as far as `traceCount` needs it: optional sign
followed by at least one ASCII digit, `none` on malformed input (Go then
also returns the value 0).  64-bit overflow is not modelled; the claims do
not exercise it. -/
def digitsVal : List Char → Nat → Option Nat
  | [], acc => some acc
  | c :: rest, acc =>
    if c.isDigit then digitsVal rest (acc * 10 + (c.toNat - 48)) else none

def goAtoi (s : String) : Option Int :=
  match s.data with
  | [] => none
  | '+' :: rest => if rest.isEmpty then none else (digitsVal rest 0).map (fun n => (n : Int))
  | '-' :: rest => if rest.isEmpty then none else (digitsVal rest 0).map (fun n => -(n : Int))
  | l => (digitsVal l 0).map (fun n => (n : Int))

/-- `traceCount` (api.go, lines 856-866): the `X-Datadog-Trace-Count`
header value (`""` when absent), 0 when absent, and — because `Atoi`
returns 0 alongside its error, which the code only logs — 0 when
malformed. -/
def traceCount (hdr : String) : Int :=
  if hdr == "" then 0 else (goAtoi hdr).getD 0

/-- Modelled from the spec: `httpDecodingError` replies an HTTP 4xx status
on input errors (§7: "reply HTTP 4xx, increment TracesDropped.DecodingError
by reported trace count"); the model fixes the code 400. -/
def decodingErrorStatus : Nat := 400

/-- The receiver state `handleTraces` consults: the rate limiter's verdict
(probabilistic in Go, an oracle here, fed the reported trace count), the
status code used on throttle, and the normalizer's verdict used by
`processTraces` (the normalizer itself is outside `src/`). -/
structure Receiver where
  permits : Int → Bool
  rateLimiterResponse : Nat
  normalizeOk : Trace → Bool

/-- The observable effects of one `handleTraces` call (api.go, 902-934):
the HTTP status written, the counters touched, and the traces handed to the
output channel by `processTraces` (api.go, 936-952). -/
structure HandleResult where
  status : Nat
  payloadRefused : Int
  decodingErrorDelta : Int
  tracesReceived : Int
  payloadAccepted : Int
  enqueued : List Trace
  spansDropped : Int
deriving Repr

/-- `processTraces` (api.go, lines 936-952): normalize each trace; failures
are dropped (counted by span), successes go to the output channel. -/
def Receiver.processTraces (r : Receiver) (traces : List Trace) : List Trace × Int :=
  (traces.filter r.normalizeOk,
   (((traces.filter (fun t => !(r.normalizeOk t))).map List.length).sum : Int))

/-- `handleTraces` (api.go, lines 902-934): read the reported trace count;
ask the rate limiter (on refusal: throttle status, refused counter, body
drained, nothing decoded); decode (on failure: 4xx via `httpDecodingError`,
`TracesDropped.DecodingError += traceCount`, nothing enqueued); otherwise
reply OK, bump the received counters and hand the traces to
`processTraces`.  The body decoding itself (JSON/msgpack) is the codec
collaborator, passed here as its outcome. -/
def Receiver.handleTraces (r : Receiver) (hdr : String)
    (decoded : Except Unit (List Trace)) : HandleResult :=
  let tc := traceCount hdr
  if !(r.permits tc) then
    { status := r.rateLimiterResponse, payloadRefused := 1, decodingErrorDelta := 0,
      tracesReceived := 0, payloadAccepted := 0, enqueued := [], spansDropped := 0 }
  else
    match decoded with
    | .error _ =>
      { status := decodingErrorStatus, payloadRefused := 0, decodingErrorDelta := tc,
        tracesReceived := 0, payloadAccepted := 0, enqueued := [], spansDropped := 0 }
    | .ok traces =>
      { status := 200, payloadRefused := 0, decodingErrorDelta := 0,
        tracesReceived := (traces.length : Int), payloadAccepted := 1,
        enqueued := (r.processTraces traces).fst,
        spansDropped := (r.processTraces traces).snd }

/-! ## Watchdog (api.go, lines 1018-1056) -/

def clip01 (x : ℚ) : ℚ :=
  if x < 0 then 0 else if 1 < x then 1 else x

/-- Go `math.Min` on the (rational-modelled) float rates. -/
def qmin (a b : ℚ) : ℚ :=
  if a ≤ b then a else b

/-- Modelled from the spec: `computeRateLimitingRate` —
`clip01(max / current · previous_rate)` (§4.8).  Division is the total
rational division; the Go float edge cases at `current = 0` are outside
the claims. -/
def computeRateLimitingRate (maxVal current previousRate : ℚ) : ℚ :=
  clip01 (maxVal / current * previousRate)

structure WatchdogConfig where
  maxMemory : ℚ
  maxCPU : ℚ
deriving Repr

/-- `watchdog.Info`: the sampled memory allocation and user-CPU average. -/
structure WatchdogInfo where
  memAlloc : ℚ
  cpuUserAvg : ℚ
deriving Repr

/-- The observable effects of one watchdog tick: whether the process was
killed (after the OOM counter and a metrics flush), and the target rate set
on the rate limiter (`none` when the process died first). -/
structure WatchdogResult where
  killed : Bool
  oomCounter : Bool
  metricsFlushed : Bool
  targetRate : Option ℚ
deriving Repr, DecidableEq

/-- `watchdog` (api.go, lines 1018-1056).  `rateMem` starts at 1.0 and is
recomputed only under `MaxMemory > 0`; inside that branch, if the current
allocation exceeds `MaxMemory * 1.5` the process emits the OOM counter,
flushes metrics and dies (so `SetTargetRate` is never reached — the source
nests the kill before computing `rateMem`, and `killProcess` does not
return).  `rateCPU` likewise starts at 1.0 and is recomputed only under
`MaxCPU > 0`.  Otherwise the limiter target becomes
`min(rateCPU, rateMem)`. -/
def watchdog (cfg : WatchdogConfig) (wi : WatchdogInfo) (realRate : ℚ) : WatchdogResult :=
  if 0 < cfg.maxMemory ∧ cfg.maxMemory * (3 / 2) < wi.memAlloc then
    { killed := true, oomCounter := true, metricsFlushed := true, targetRate := none }
  else
    let rateMem := if 0 < cfg.maxMemory then
        computeRateLimitingRate cfg.maxMemory wi.memAlloc realRate
      else 1
    let rateCPU := if 0 < cfg.maxCPU then
        computeRateLimitingRate cfg.maxCPU wi.cpuUserAvg realRate
      else 1
    { killed := false, oomCounter := false, metricsFlushed := false,
      targetRate := some (qmin rateCPU rateMem) }

/-! ## Claim-side formulations for the sampler set -/

/-- The priority sampler's decision as the claim reads it: `false` when the
sampler was not consulted (its Go zero value). -/
def priorityKeptPart (a : Agent) (pt : ProcessedTrace) : Bool :=
  if pt.getSamplingPriority.isSome then (a.prioritySampler pt).fst else false

/-- The decision of whichever of the errors/score samplers handles the
trace. -/
def scoreKeptPart (a : Agent) (pt : ProcessedTrace) : Bool :=
  if traceContainsError pt.trace then (a.errorsScoreSampler pt).fst else (a.scoreSampler pt).fst

/-- The rate of whichever of the errors/score samplers handles the trace. -/
def scoreRatePart (a : Agent) (pt : ProcessedTrace) : ℚ :=
  if traceContainsError pt.trace then (a.errorsScoreSampler pt).snd else (a.scoreSampler pt).snd

/-! ## Concrete inputs and claim-side rate definitions -/

/-- A first v0.1 span (`trace_id` 7, `span_id` 1; scenario S3 shape). -/
def v01SpanA : Span :=
  { traceID := 7, spanID := 1, parentID := 0, service := "api", name := "web.request",
    resource := "/x", start := 0, duration := 10, error := 0, meta := [], metrics := [] }

/-- A second, different span of the same trace (`span_id` 2). -/
def v01SpanB : Span :=
  { v01SpanA with spanID := 2 }

/-- The claim's memory rate: `clip01(max_memory / current_memory ·
previous_rate)` — amended with the disabled case `max_memory = 0`, where
the source keeps the initial `rateMem = 1.0`. -/
def wdRateMem (cfg : WatchdogConfig) (wi : WatchdogInfo) (realRate : ℚ) : ℚ :=
  if 0 < cfg.maxMemory then computeRateLimitingRate cfg.maxMemory wi.memAlloc realRate else 1

/-- The claim's CPU rate, likewise amended with the disabled case. -/
def wdRateCPU (cfg : WatchdogConfig) (wi : WatchdogInfo) (realRate : ℚ) : ℚ :=
  if 0 < cfg.maxCPU then computeRateLimitingRate cfg.maxCPU wi.cpuUserAvg realRate else 1

/-- A concrete receiver whose rate limiter admits everything. -/
def openReceiver : Receiver :=
  { permits := fun _ => true, rateLimiterResponse := 200, normalizeOk := fun _ => true }

/-- A permissive concrete agent: fixed sampler answers (priority keeps at
rate 1/4, score keeps at rate 1/2), no events, no blacklist, identity
sanitizers, pre-sample rate 1/2. -/
def wAgent : Agent :=
  { prioritySampler := fun _ => (true, 1 / 4)
    errorsScoreSampler := fun _ => (false, 1 / 3)
    scoreSampler := fun _ => (true, 1 / 2)
    eventProcessor := fun _ _ => ([], 0)
    blacklistAllows := fun _ => true
    obfuscateText := id
    replaceText := id
    rateLimiterRealRate := 1 / 2
    defaultEnv := "none" }

/-- A root span carrying the explicit sampling priority 1. -/
def wSpan : Span :=
  { traceID := 1, spanID := 1, parentID := 0, service := "api", name := "web.request",
    resource := "/x", start := 0, duration := 10, error := 0, meta := [],
    metrics := [(keySamplingPriority, 1)] }

/-- An agent whose samplers keep nothing: the score sampler answers
`(false, 1/2)`; pre-sample rate 1/2; everything else neutral. -/
def c3Agent : Agent :=
  { prioritySampler := fun _ => (false, 0)
    errorsScoreSampler := fun _ => (false, 1 / 3)
    scoreSampler := fun _ => (false, 1 / 2)
    eventProcessor := fun _ _ => ([], 0)
    blacklistAllows := fun _ => true
    obfuscateText := id
    replaceText := id
    rateLimiterRealRate := 1 / 2
    defaultEnv := "none" }

/-- A plain root span: no priority, no error, empty metrics. -/
def c3Span : Span :=
  { traceID := 1, spanID := 1, parentID := 0, service := "api", name := "n",
    resource := "r", start := 0, duration := 1, error := 0, meta := [], metrics := [] }

/-- The same agent with a blacklister that rejects resource `"bad"`. -/
def bAgent : Agent :=
  { c3Agent with blacklistAllows := fun s => s.resource != "bad" }

/-- A span the blacklister rejects; it carries no sampling priority. -/
def bSpan : Span :=
  { c3Span with resource := "bad" }

/-! ## Theorems -/

theorem qmin_comm (a b : ℚ) : qmin a b = qmin b a := by
  unfold qmin
  split_ifs with h1 h2 h3
  · exact le_antisymm h1 h2
  · rfl
  · rfl
  · exact absurd (le_of_not_le h1) h3


/-- C10.  `parseContainerHealth` is total (it is a Lean function) and
returns `"unhealthy"` whenever the status contains `"unhealthy"`, the empty
string whenever the status contains neither `"unhealthy"` nor `'('`, and
otherwise the first capture group of the first match of
`\(health: (\w+)\)`, or the empty string when the pattern does not match —
i.e. it agrees everywhere with the claim's description `healthClaimed`. -/
theorem parseContainerHealth_matches_claim (status : String) :
    parseContainerHealth status = healthClaimed status := by
  unfold parseContainerHealth healthClaimed
  split_ifs with h1 h2
  · rfl
  · rfl
  · cases hFind : healthFindAll status.data with
    | nil => simp [hFind]
    | cons m rest => simp [hFind]

/-- C1.  `runSamplers` keeps a trace exactly when the priority sampler's
decision or the (errors-or-score) sampler's decision keeps it, and the rate
it returns is `r_p + r_s - r_p·r_s` when both samplers were consulted and
the (errors-or-score) sampler's rate when only that one was (the score side
is always consulted — see `runSamplers_consultation` — so the "no sampler"
case of the claim is vacuous). -/
theorem runSamplers_decision_and_rate (a : Agent) (pt : ProcessedTrace) :
    (a.runSamplers pt).sampled = (priorityKeptPart a pt || scoreKeptPart a pt)
    ∧ (a.runSamplers pt).rate =
        (if pt.getSamplingPriority.isSome then
          (a.prioritySampler pt).snd + scoreRatePart a pt
            - (a.prioritySampler pt).snd * scoreRatePart a pt
        else scoreRatePart a pt) := by
  unfold Agent.runSamplers priorityKeptPart scoreKeptPart scoreRatePart CombineRates
  by_cases h : pt.getSamplingPriority.isSome <;>
    by_cases he : traceContainsError pt.trace <;>
      simp [h, he, Bool.or_comm]

/-- C2.  In `runSamplers`, the priority sampler is consulted iff the trace
carries an explicit sampling priority, the errors-score sampler iff some
span has `error != 0`, the score sampler iff no span does; hence exactly
one of the errors/score samplers is consulted per trace. -/
theorem runSamplers_consultation (a : Agent) (pt : ProcessedTrace) :
    (a.runSamplers pt).consultedPriority = pt.getSamplingPriority.isSome
    ∧ (a.runSamplers pt).consultedErrors = traceContainsError pt.trace
    ∧ (a.runSamplers pt).consultedScore = !traceContainsError pt.trace
    ∧ (a.runSamplers pt).consultedErrors ≠ (a.runSamplers pt).consultedScore := by
  refine ⟨rfl, rfl, rfl, ?_⟩
  show traceContainsError pt.trace ≠ !traceContainsError pt.trace
  cases traceContainsError pt.trace <;> simp

/-- Helper: sending `ss` exactly when it is not `Empty` is the same as
sending it exactly when one of its parts is non-empty. -/
theorem empty_gate_isSome (ss : SampledSpans) :
    (if ss.Empty then none else some ss).isSome
      = (!ss.trace.isEmpty || !ss.events.isEmpty) := by
  unfold SampledSpans.Empty
  cases h1 : ss.trace.isEmpty <;> cases h2 : ss.events.isEmpty <;> simp [h1, h2]

/-- C8.  The sampling stage sends its output on the sampled-spans channel
iff at least one of the two parts (kept spans, extracted events) is
non-empty; when the samplers did not keep the trace and no events were
extracted, nothing is sent. -/
theorem sample_sent_iff_nonempty (a : Agent) (pt : ProcessedTrace) :
    (a.sample pt).sent.isSome
      = (!(a.sample pt).ss.trace.isEmpty || !(a.sample pt).ss.events.isEmpty) := by
  have h : (a.sample pt).sent
      = (if (a.sample pt).ss.Empty then none else some ((a.sample pt).ss)) := rfl
  rw [h, empty_gate_isSome]

/-- C9.  `Process` of an empty trace is an immediate no-op: no priority or
filtered counter is bumped, the samplers never run, nothing is sent on the
sampled-spans channel or to the concentrator. -/
theorem process_empty_noop (a : Agent) :
    (a.Process []).priorityStat = none ∧ (a.Process []).tracesFiltered = 0
    ∧ (a.Process []).spansFiltered = 0 ∧ (a.Process []).samplersRun = false
    ∧ (a.Process []).spansOut = none ∧ (a.Process []).concentratorIn = none
    ∧ (a.Process []).eventsExtracted = 0 :=
  ⟨rfl, rfl, rfl, rfl, rfl, rfl, rfl⟩

/-! ## Support lemmas on metrics maps and list access -/

theorem lookupMetric_setMetric_self (m : Metrics) (k : String) (v : ℚ) :
    lookupMetric (setMetric m k v) k = some v := by
  induction m with
  | nil => simp [setMetric, lookupMetric]
  | cons p rest ih =>
    by_cases h : p.fst = k
    · simp [setMetric, lookupMetric, h]
    · simpa [setMetric, lookupMetric, h] using ih

theorem lookupMetric_setMetric_other (m : Metrics) (k k' : String) (v : ℚ)
    (h : k ≠ k') : lookupMetric (setMetric m k' v) k = lookupMetric m k := by
  induction m with
  | nil => simp [setMetric, lookupMetric, Ne.symm h]
  | cons p rest ih =>
    by_cases hp : p.fst = k'
    · simp [setMetric, lookupMetric, hp, Ne.symm h, h]
    · by_cases hk : p.fst = k
      · simp [setMetric, lookupMetric, hp, hk, h]
      · simpa [setMetric, lookupMetric, hp, hk] using ih

theorem getD_map_of_lt {α β : Type} (f : α → β) (l : List α) (i : Nat)
    (d : α) (d' : β) (h : i < l.length) :
    (l.map f).getD i d' = f (l.getD i d) := by
  rw [List.getD_eq_getElem?_getD, List.getD_eq_getElem?_getD, List.getElem?_map,
    List.getElem?_eq_getElem h]
  simp

theorem getD_set_self_of_lt {α : Type} (l : List α) (i : Nat) (x d : α)
    (h : i < l.length) : (l.set i x).getD i d = x := by
  rw [List.getD_eq_getElem?_getD, List.getElem?_set_eq_of_lt x h]
  rfl

/-! ## C4: the v0.1 span grouping -/

/-- C4 fails on the code: grouping `[A, B]`, two distinct spans of trace 7,
yields the single trace `[B, B]` — the right group size for the right
`trace_id`, but every entry is the last input span (the Go loop appended
`&s`, the address of the range variable), so span `A` is lost and span `B`
duplicated, where the claim (and `tracesFromSpansIntended`, the spec's
grouping) requires `[A, B]`. -/
theorem tracesFromSpans_aliasing_bug :
    tracesFromSpans [v01SpanA, v01SpanB] = [[v01SpanB, v01SpanB]]
    ∧ tracesFromSpansIntended [v01SpanA, v01SpanB] = [[v01SpanA, v01SpanB]]
    ∧ v01SpanA ≠ v01SpanB
    ∧ tracesFromSpans [v01SpanA, v01SpanB] ≠ tracesFromSpansIntended [v01SpanA, v01SpanB] := by
  refine ⟨by decide, by decide, by decide, by decide⟩

/-! ## C5: the watchdog tick -/

/-- C5 (amended).  On a watchdog tick the process is killed — after
emitting the OOM counter and flushing metrics — iff the memory limit is
enabled (`max_memory > 0`) and the current allocation exceeds
`1.5 × max_memory`; on every non-killing tick the rate limiter's target is
set to `min(rateMem, rateCPU)`, where each rate is
`clip01(max/current · previous_rate)` when its limit is enabled and `1.0`
when disabled. -/
theorem watchdog_tick_spec (cfg : WatchdogConfig) (wi : WatchdogInfo) (realRate : ℚ) :
    (watchdog cfg wi realRate).killed
      = (decide (0 < cfg.maxMemory) && decide (cfg.maxMemory * (3 / 2) < wi.memAlloc))
    ∧ (watchdog cfg wi realRate).oomCounter = (watchdog cfg wi realRate).killed
    ∧ (watchdog cfg wi realRate).metricsFlushed = (watchdog cfg wi realRate).killed
    ∧ (watchdog cfg wi realRate).targetRate
      = (if 0 < cfg.maxMemory ∧ cfg.maxMemory * (3 / 2) < wi.memAlloc then none
         else some (qmin (wdRateMem cfg wi realRate) (wdRateCPU cfg wi realRate))) := by
  unfold watchdog wdRateMem wdRateCPU
  by_cases h : 0 < cfg.maxMemory ∧ cfg.maxMemory * (3 / 2) < wi.memAlloc
  · simp [h]
  · simp [h, qmin_comm]
    intro hm
    by_contra hc
    exact h ⟨hm, lt_of_not_le hc⟩

/-- C5 counterexample: with `max_memory = 0` (the source's "limits
disabled" configuration) and one byte allocated, the claim's kill
condition `current_memory > 1.5 × max_memory` holds, yet the watchdog does
not kill the process — it sets a target rate of 1.0 instead (and `rateMem`
is not `clip01(max/current · previous_rate)`, which would be 0, but 1.0). -/
theorem watchdog_no_kill_when_disabled :
    (watchdog ⟨0, 0⟩ ⟨1, 0⟩ 1).killed = false
    ∧ ((3 : ℚ) / 2) * 0 < 1
    ∧ (watchdog ⟨0, 0⟩ ⟨1, 0⟩ 1).targetRate = some 1
    ∧ clip01 ((0 : ℚ) / 1 * 1) = 0 := by
  refine ⟨by decide, by norm_num, by decide, by norm_num [clip01]⟩

/-! ## C7: decoding failures in `handleTraces` -/

/-- C7.  When the request is admitted and the body fails to decode,
`handleTraces` replies with an HTTP 4xx status, bumps
`TracesDropped.DecodingError` by exactly the trace count reported in the
`X-Datadog-Trace-Count` header, and enqueues nothing. -/
theorem handleTraces_decoding_error (r : Receiver) (hdr : String)
    (hperm : r.permits (traceCount hdr) = true) :
    (r.handleTraces hdr (Except.error ())).decodingErrorDelta = traceCount hdr
    ∧ 400 ≤ (r.handleTraces hdr (Except.error ())).status
    ∧ (r.handleTraces hdr (Except.error ())).status < 500
    ∧ (r.handleTraces hdr (Except.error ())).enqueued = [] := by
  unfold Receiver.handleTraces
  simp [hperm, decodingErrorStatus]

/-- Witness for C7 at a concrete input: header "3", admitted, decode
error. -/
theorem handleTraces_decoding_error_witness :
    openReceiver.permits (traceCount "3") = true
    ∧ (openReceiver.handleTraces "3" (Except.error ())).decodingErrorDelta = traceCount "3"
    ∧ 400 ≤ (openReceiver.handleTraces "3" (Except.error ())).status
    ∧ (openReceiver.handleTraces "3" (Except.error ())).status < 500
    ∧ (openReceiver.handleTraces "3" (Except.error ())).enqueued = [] := by
  have h := handleTraces_decoding_error openReceiver "3" rfl
  exact ⟨rfl, h.1, h.2.1, h.2.2.1, h.2.2.2⟩

/-! ## Support lemmas for the rate-composition claim -/

theorem bestRootIdx_mem (t : Trace) (l : List Nat) (j : Nat)
    (h : bestRootIdx t l = some j) : j ∈ l := by
  induction l generalizing j with
  | nil => simp [bestRootIdx] at h
  | cons i is ih =>
    unfold bestRootIdx at h
    cases hb : bestRootIdx t is with
    | none =>
      rw [hb] at h
      injection h with h
      subst h
      exact List.mem_cons_self _ _
    | some j' =>
      rw [hb] at h
      have h2 : (if (t.getD j' default).start < (t.getD i default).start
          then some j' else some i) = some j := h
      by_cases hlt : (t.getD j' default).start < (t.getD i default).start
      · rw [if_pos hlt] at h2
        injection h2 with h2
        subst h2
        exact List.mem_cons_of_mem _ (ih _ hb)
      · rw [if_neg hlt] at h2
        injection h2 with h2
        subst h2
        exact List.mem_cons_self _ _

theorem getRootIdx_lt (t : Trace) (hne : t ≠ []) : getRootIdx t < t.length := by
  unfold getRootIdx
  cases hb : bestRootIdx t ((List.range t.length).filter
      (fun i => isRootCand t (t.getD i default))) with
  | none =>
    have hpos : 0 < t.length := List.length_pos.mpr hne
    simpa using Nat.sub_lt hpos Nat.one_pos
  | some j =>
    have hm := bestRootIdx_mem t _ j hb
    have hr : j ∈ List.range t.length := (List.mem_filter.mp hm).1
    simpa using List.mem_range.mp hr

theorem computeTopLevel_length (t : Trace) : (computeTopLevel t).length = t.length := by
  simp [computeTopLevel]

theorem sublayerStage_length (t : Trace) : (sublayerStage t).length = t.length := by
  simp [sublayerStage]

theorem prepSpans_length (a : Agent) (t : Trace) (i : Nat) :
    (prepSpans a t i).length = t.length := by
  simp [prepSpans, sublayerStage_length, computeTopLevel_length]

theorem prepTrace_trace_length (a : Agent) (t : Trace) (i : Nat) :
    (a.prepTrace t i).trace.length = t.length :=
  prepSpans_length a t i

theorem lookup_sampleRate_markTop (t : Trace) (s : Span) :
    lookupMetric (if isTopLevel t s
        then { s with metrics := setMetric s.metrics keyTopLevel 1 }
        else s).metrics keySampleRate
      = lookupMetric s.metrics keySampleRate := by
  by_cases hc : isTopLevel t s
  · simp only [hc, if_true]
    exact lookupMetric_setMetric_other _ _ _ _ (by decide)
  · simp [hc]

theorem lookup_sampleRate_markSublayer (t : Trace) (s : Span) :
    lookupMetric (if isTopLevel t s
        then { s with metrics := setMetric s.metrics keySublayerSpanCount ((t.filter (fun x => inSubtrace t s x)).length : ℚ) }
        else s).metrics keySampleRate
      = lookupMetric s.metrics keySampleRate := by
  by_cases hc : isTopLevel t s
  · simp only [hc, if_true]
    exact lookupMetric_setMetric_other _ _ _ _ (by decide)
  · simp [hc]

theorem computeTopLevel_getD_sampleRate (t : Trace) (i : Nat) (h : i < t.length) :
    lookupMetric ((computeTopLevel t).getD i default).metrics keySampleRate
      = lookupMetric (t.getD i default).metrics keySampleRate := by
  unfold computeTopLevel
  rw [getD_map_of_lt _ _ _ default _ h]
  exact lookup_sampleRate_markTop _ _

theorem sublayerStage_getD_sampleRate (t : Trace) (i : Nat) (h : i < t.length) :
    lookupMetric ((sublayerStage t).getD i default).metrics keySampleRate
      = lookupMetric (t.getD i default).metrics keySampleRate := by
  unfold sublayerStage
  rw [getD_map_of_lt _ _ _ default _ h]
  exact lookup_sampleRate_markSublayer _ _

theorem GetGlobalRate_SetClientRate (s : Span) (r : ℚ) :
    GetGlobalRate (SetClientRate s r) = GetGlobalRate s := by
  unfold GetGlobalRate SetClientRate
  rw [lookupMetric_setMetric_other _ _ _ _ (by decide)]

theorem GetGlobalRate_SetPreSampleRate (s : Span) (r : ℚ) :
    GetGlobalRate (SetPreSampleRate s r) = GetGlobalRate s := by
  unfold GetGlobalRate SetPreSampleRate
  rw [lookupMetric_setMetric_other _ _ _ _ (by decide)]

theorem lookup_sampleRate_AddGlobalRate (s : Span) (r : ℚ) :
    lookupMetric (AddGlobalRate s r).metrics keySampleRate
      = some (GetGlobalRate s * r) := by
  unfold AddGlobalRate
  exact lookupMetric_setMetric_self _ _ _

theorem GetGlobalRate_sanitizeSpan (a : Agent) (s : Span) :
    GetGlobalRate (sanitizeSpan a s) = GetGlobalRate s := rfl

theorem rateStageRoot_sampleRate (a : Agent) (root2 : Span) :
    lookupMetric (rateStageRoot a root2).metrics keySampleRate
      = some (GetGlobalRate root2 * a.rateLimiterRealRate) := by
  unfold rateStageRoot
  rw [lookup_sampleRate_AddGlobalRate, GetGlobalRate_SetPreSampleRate,
    GetGlobalRate_SetClientRate]

theorem prepSpans_root_sampleRate (a : Agent) (t : Trace) (i : Nat)
    (h : i < t.length) :
    lookupMetric ((prepSpans a t i).getD i default).metrics keySampleRate
      = some (GetGlobalRate (t.getD i default) * a.rateLimiterRealRate) := by
  have h2 : i < (t.map (sanitizeSpan a)).length := by simpa using h
  have h3 : i < ((t.map (sanitizeSpan a)).set i
      (rateStageRoot a ((t.map (sanitizeSpan a)).getD i default))).length := by
    simpa using h
  have h4 : i < (computeTopLevel ((t.map (sanitizeSpan a)).set i
      (rateStageRoot a ((t.map (sanitizeSpan a)).getD i default)))).length := by
    rw [computeTopLevel_length]
    exact h3
  unfold prepSpans
  rw [sublayerStage_getD_sampleRate _ _ h4, computeTopLevel_getD_sampleRate _ _ h3,
    getD_set_self_of_lt _ _ _ _ h2, rateStageRoot_sampleRate,
    getD_map_of_lt _ _ _ default _ h, GetGlobalRate_sanitizeSpan]

theorem prepTrace_root_sampleRate (a : Agent) (t : Trace) (i : Nat)
    (h : i < t.length) :
    lookupMetric (a.prepTrace t i).root.metrics keySampleRate
      = some (GetGlobalRate (t.getD i default) * a.rateLimiterRealRate) :=
  prepSpans_root_sampleRate a t i h

theorem sample_finalTrace_root_sampleRate (a : Agent) (pt : ProcessedTrace)
    (h : pt.rootIdx < pt.trace.length) :
    lookupMetric ((a.sample pt).finalPt.trace.getD pt.rootIdx default).metrics keySampleRate
      = (if (a.runSamplers pt).sampled
         then some (GetGlobalRate pt.root * (a.runSamplers pt).rate)
         else lookupMetric pt.root.metrics keySampleRate) := by
  unfold Agent.sample
  by_cases hs : (a.runSamplers pt).sampled
  · simp only [hs, if_true]
    rw [getD_set_self_of_lt _ _ _ _ h]
    exact lookup_sampleRate_AddGlobalRate _ _
  · simp only [hs, if_false]
    rfl

/-- C3 (amended).  For every non-empty trace that passes the blacklister
and enters the sampling stage (up-front priority ≥ 0, missing treated as
0), the root's global sample-rate metric after processing equals
`client_rate × pre_sample_rate × combined_sampler_rate` when the samplers
kept the trace; when they did not keep it, the combined rate is not applied
and the metric equals `client_rate × pre_sample_rate`. -/
theorem process_rate_composition (a : Agent) (t : Trace)
    (hne : t ≠ [])
    (hb : a.blacklistAllows (rootSpanOf t) = true)
    (hp : 0 ≤ (GetSamplingPriority (rootSpanOf t)).getD 0) :
    lookupMetric (((a.Process t).finalTrace).getD (getRootIdx t) default).metrics keySampleRate
      = some (GetGlobalRate (rootSpanOf t) * a.rateLimiterRealRate
          * (if (a.runSamplers (a.prepTrace t (getRootIdx t))).sampled
             then (a.runSamplers (a.prepTrace t (getRootIdx t))).rate else 1)) := by
  have hi : getRootIdx t < t.length := getRootIdx_lt t hne
  have hE : t.isEmpty = false := by
    cases t with
    | nil => exact absurd rfl hne
    | cons x xs => rfl
  unfold rootSpanOf at hb hp
  have hb' : a.blacklistAllows (t[getRootIdx t]?.getD default) = true := by
    rw [← List.getD_eq_getElem?_getD]
    exact hb
  have hp' : 0 ≤ (GetSamplingPriority (t[getRootIdx t]?.getD default)).getD 0 := by
    rw [← List.getD_eq_getElem?_getD]
    exact hp
  have hfin : (a.Process t).finalTrace
      = (a.sample (a.prepTrace t (getRootIdx t))).finalPt.trace := by
    unfold Agent.Process
    simp [hE, hb', hp']
  have hlen : (a.prepTrace t (getRootIdx t)).rootIdx
      < (a.prepTrace t (getRootIdx t)).trace.length := by
    show getRootIdx t < (a.prepTrace t (getRootIdx t)).trace.length
    rw [prepTrace_trace_length]
    exact hi
  have hroot := prepTrace_root_sampleRate a t (getRootIdx t) hi
  have hg : GetGlobalRate (a.prepTrace t (getRootIdx t)).root
      = GetGlobalRate (t.getD (getRootIdx t) default) * a.rateLimiterRealRate := by
    unfold GetGlobalRate
    rw [show lookupMetric (a.prepTrace t (getRootIdx t)).root.metrics keySampleRate
        = some (GetGlobalRate (t.getD (getRootIdx t) default) * a.rateLimiterRealRate) from hroot]
    rfl
  rw [hfin]
  have hmain := sample_finalTrace_root_sampleRate a (a.prepTrace t (getRootIdx t)) hlen
  rw [show (a.prepTrace t (getRootIdx t)).rootIdx = getRootIdx t from rfl] at hmain
  rw [hmain]
  by_cases hs : (a.runSamplers (a.prepTrace t (getRootIdx t))).sampled
  · rw [if_pos hs, if_pos hs, hg]
    unfold rootSpanOf
    rw [mul_assoc]
  · rw [if_neg hs, if_neg hs, hroot]
    unfold rootSpanOf
    rw [mul_one]

/-- Witness for C3 (amended) at a concrete input: one-span trace with
priority 1, samplers kept the trace. -/
theorem process_rate_composition_witness :
    [wSpan] ≠ ([] : Trace)
    ∧ wAgent.blacklistAllows (rootSpanOf [wSpan]) = true
    ∧ 0 ≤ (GetSamplingPriority (rootSpanOf [wSpan])).getD 0
    ∧ lookupMetric (((wAgent.Process [wSpan]).finalTrace).getD (getRootIdx [wSpan]) default).metrics keySampleRate
      = some (GetGlobalRate (rootSpanOf [wSpan]) * wAgent.rateLimiterRealRate
          * (if (wAgent.runSamplers (wAgent.prepTrace [wSpan] (getRootIdx [wSpan]))).sampled
             then (wAgent.runSamplers (wAgent.prepTrace [wSpan] (getRootIdx [wSpan]))).rate else 1)) :=
  ⟨by decide, rfl, by decide,
    process_rate_composition wAgent [wSpan] (by decide) rfl (by decide)⟩

/-- C3 counterexample: with a client rate of 1 (unset), a pre-sample rate
of 1/2 and a combined sampler rate of 1/2 on a trace the samplers did not
keep, the final global sample rate is 1/2, not the claimed
`client_rate × pre_sample_rate × combined_sampler_rate = 1/4`. -/
theorem process_rate_composition_cex :
    lookupMetric (((c3Agent.Process [c3Span]).finalTrace).getD (getRootIdx [c3Span]) default).metrics keySampleRate
      = some (1 / 2)
    ∧ (c3Agent.runSamplers (c3Agent.prepTrace [c3Span] (getRootIdx [c3Span]))).sampled = false
    ∧ (c3Agent.runSamplers (c3Agent.prepTrace [c3Span] (getRootIdx [c3Span]))).rate = 1 / 2
    ∧ GetGlobalRate (rootSpanOf [c3Span]) = 1
    ∧ c3Agent.rateLimiterRealRate = 1 / 2
    ∧ (1 : ℚ) * (1 / 2) * (1 / 2) ≠ 1 / 2 := by
  refine ⟨?_, rfl, ?_, rfl, rfl, by norm_num⟩
  · have heq : ((c3Agent.Process [c3Span]).finalTrace).getD (getRootIdx [c3Span]) default
        = (prepSpans c3Agent [c3Span] 0).getD 0 default := rfl
    rw [heq, prepSpans_root_sampleRate c3Agent [c3Span] 0 (by decide)]
    rw [show GetGlobalRate (List.getD [c3Span] 0 default) = 1 from rfl,
      show c3Agent.rateLimiterRealRate = 1 / 2 from rfl, one_mul]
  · have heq : (c3Agent.runSamplers (c3Agent.prepTrace [c3Span] (getRootIdx [c3Span]))).rate
        = CombineRates 0 (1 / 2) := rfl
    rw [heq]
    unfold CombineRates
    norm_num

/-- C6 (amended).  For every non-empty trace that the blacklister allows,
the sampling stage (sampler set and event extractor) runs iff the priority
read up front from the root is ≥ 0, a missing priority reading as 0 (hence
treated as ≥ 0); and the trace is sent to the concentrator in either case. -/
theorem process_sampling_gate (a : Agent) (t : Trace)
    (hne : t ≠ []) (hb : a.blacklistAllows (rootSpanOf t) = true) :
    (a.Process t).samplersRun = decide (0 ≤ (GetSamplingPriority (rootSpanOf t)).getD 0)
    ∧ (a.Process t).concentratorIn.isSome = true := by
  have hE : t.isEmpty = false := by
    cases t with
    | nil => exact absurd rfl hne
    | cons x xs => rfl
  unfold rootSpanOf at hb ⊢
  have hb' : a.blacklistAllows (t[getRootIdx t]?.getD default) = true := by
    rw [← List.getD_eq_getElem?_getD]
    exact hb
  unfold Agent.Process
  by_cases hp : 0 ≤ (GetSamplingPriority (t.getD (getRootIdx t) default)).getD 0
  · have hp' : 0 ≤ (GetSamplingPriority (t[getRootIdx t]?.getD default)).getD 0 := by
      rw [← List.getD_eq_getElem?_getD]
      exact hp
    simp [hE, hb', hp', hp]
  · have hp' : ¬ 0 ≤ (GetSamplingPriority (t[getRootIdx t]?.getD default)).getD 0 := by
      rw [← List.getD_eq_getElem?_getD]
      exact hp
    simp [hE, hb', hp', hp]

/-- Witness for C6 (amended) at a concrete input: one-span trace with
priority 1, blacklister allows, samplers run and the concentrator input is
sent. -/
theorem process_sampling_gate_witness :
    [wSpan] ≠ ([] : Trace)
    ∧ wAgent.blacklistAllows (rootSpanOf [wSpan]) = true
    ∧ (wAgent.Process [wSpan]).samplersRun
        = decide (0 ≤ (GetSamplingPriority (rootSpanOf [wSpan])).getD 0)
    ∧ (wAgent.Process [wSpan]).concentratorIn.isSome = true :=
  ⟨by decide, rfl,
    (process_sampling_gate wAgent [wSpan] (by decide) rfl).1,
    (process_sampling_gate wAgent [wSpan] (by decide) rfl).2⟩

/-- C6 counterexample: a non-empty trace with no explicit priority (the
claim then requires the samplers to be invoked and the trace to reach the
concentrator), rejected by the blacklister: `Process` invokes no sampler
and sends nothing to the concentrator. -/
theorem process_blacklist_gate_cex :
    GetSamplingPriority (rootSpanOf [bSpan]) = none
    ∧ (bAgent.Process [bSpan]).samplersRun = false
    ∧ (bAgent.Process [bSpan]).concentratorIn = none
    ∧ (bAgent.Process [bSpan]).tracesFiltered = 1 :=
  ⟨rfl, rfl, rfl, rfl⟩

end DDAgent
